import Mathlib

/-!
Verification development for the `web-worker` Node.js polyfill.

The definitions below are a shallow embedding of the JavaScript sources:
`src/node-worker.js` (the Worker facade on the orchestrator side) and the
two module-loader hooks `src/node-loader-v16.js` / `src/node-loader-v18.js`.
JavaScript strings are embedded as Lean `String`; listener identities,
message payloads and failure values are opaque and embedded as type
parameters or `Nat` identities; host primitives that the code consumes as
given (the URL resolver, the `next` continuation of a loader hook) are
passed in as function parameters.
-/

namespace WW

/-! ### JavaScript string primitives -/

/-- Embeds JavaScript `p.startsWith(q)`: `jsStartsWith q p` is true when `q`
is a prefix of `p` (character-wise). -/
def jsStartsWith (p s : String) : Bool :=
  p.toList.isPrefixOf s.toList

/-- Embeds JavaScript `s.includes(p)`: true when `p` occurs contiguously in
`s`. -/
def jsIncludes (p s : String) : Bool :=
  decide (p.toList <:+: s.toList)

/-- Normalises one JavaScript `slice` index against a string length:
negative indices count from the end (clamped at 0), non-negative indices
are clamped at the length. -/
def jsSliceIndex (len : Nat) (i : Int) : Nat :=
  if i < 0 then ((len : Int) + i).toNat else min i.toNat len

/-- Embeds JavaScript `s.slice(a, b)` (as used by the v16 loader with
negative indices). -/
def jsSlice (s : String) (a b : Int) : String :=
  let st := jsSliceIndex s.length a
  let en := jsSliceIndex s.length b
  String.mk ((s.toList.drop st).take (en - st))

/-! ### Worker facade state (`src/node-worker.js`)

The facade extends `EventTarget`.  An `EventTarget` registration is a
(event type, listener identity) pair; per the DOM contract a second
`addEventListener` with an identical pair is a no-op.  The facade's
overridden `addEventListener` additionally arms, for the `"message"` type,
a forwarder `this.#worker.on('message', data => dispatch(MessageEvent))`
on the native channel; `forwarders` counts how many such forwarders have
been armed. -/

structure MessageEvent (α : Type) where
  data : α
deriving DecidableEq, Repr

structure FState where
  listeners : List (String × Nat)
  forwarders : Nat
  slot : Option Nat
deriving DecidableEq, Repr

/-- Freshly constructed facade: no registrations, no armed forwarders,
`#onmessage = null`. -/
def initF : FState := ⟨[], 0, none⟩

/-- `super.addEventListener(type, listener)`: EventTarget registration,
deduplicating identical (type, listener) pairs. -/
def superAddEventListener (ty : String) (l : Nat) (s : FState) : FState :=
  if (ty, l) ∈ s.listeners then s else { s with listeners := s.listeners ++ [(ty, l)] }

/-- The facade's `addEventListener` (src/node-worker.js lines 105-116):
registers via `super.addEventListener`, then — on every call with type
`"message"` — arms one more forwarder from the native channel. -/
def addEventListener (ty : String) (l : Nat) (s : FState) : FState :=
  let s1 := superAddEventListener ty l s
  if ty == "message" then { s1 with forwarders := s1.forwarders + 1 } else s1

/-- `removeEventListener(type, listener)`: removes the matching EventTarget
registration, if present. -/
def removeEventListener (ty : String) (l : Nat) (s : FState) : FState :=
  { s with listeners := s.listeners.erase (ty, l) }

/-- One low-level message with payload `v` arriving on the native channel:
every armed forwarder constructs a fresh `MessageEvent('message', {data})`
and dispatches it at the handle, so the handle sees one dispatched message
event per armed forwarder. -/
def nativeMessage {α : Type} (v : α) (s : FState) : List (MessageEvent α) :=
  List.replicate s.forwarders ⟨v⟩

/-- A sequence of `addEventListener('message', ...)` calls with the given
listener identities. -/
def registerMany (ls : List Nat) (s : FState) : FState :=
  ls.foldl (fun s l => addEventListener "message" l s) s

/-- A JavaScript value assigned to the `onmessage` accessor: either a
function (with an identity) or any non-function value. -/
inductive JSVal where
  | fn (id : Nat)
  | nonFn
deriving DecidableEq, Repr

/-- `if (this.#onmessage) this.removeEventListener('message', this.#onmessage)`:
the first step of the `onmessage` setter. -/
def slotRemoved (s : FState) : FState :=
  match s.slot with
  | some old => removeEventListener "message" old s
  | none => s

/-- The `onmessage` setter (src/node-worker.js lines 215-228): removes the
previously slotted function from the listener set, then — for a function —
stores it in the slot and registers it via the facade's
`addEventListener`; for a non-function the slot ends up `null` and nothing
is registered. -/
def setOnmessage (v : JSVal) (s : FState) : FState :=
  let s1 := slotRemoved s
  match v with
  | .fn f => addEventListener "message" f { s1 with slot := some f }
  | .nonFn => { s1 with slot := none }

/-- The `onmessage` getter. -/
def getOnmessage (s : FState) : Option Nat := s.slot

/-! ### Construction (`src/node-worker.js` constructor, lines 85-97) -/

/-- Observable side effects of construction; `spawnNative` records that
`#loadModule` spawned the native execution context. -/
inductive Effect where
  | spawnNative (scriptURL : String) (name : Option String)
deriving DecidableEq, Repr

structure WorkerOptions where
  name : Option String := none
  type : Option String := none
deriving DecidableEq, Repr

/-- The `Worker` constructor: destructures `{ name, type }` from the
options (both absent when the options object is omitted), throws the
configuration error when `type !== 'module'`, and otherwise calls
`#loadModule`, which spawns the native context.  The returned pair is the
ordered effect trace together with the outcome. -/
def construct (scriptURL : String) (opts : WorkerOptions) :
    List Effect × Except String FState :=
  if opts.type = some "module" then
    ([.spawnNative scriptURL opts.name], .ok initF)
  else
    ([], .error "Sorry, only module workers are supported\nUse: new Worker(path, \x7b type: \"module\" \x7d)\n")

/-! ### Native error propagation (`src/node-worker.js` lines 168-172, 67-72) -/

structure ErrorEvent (ε : Type) where
  type : String
  error : ε

/-- The `worker.on('error', ...)` callback: wraps the raw failure value in
an `ErrorEvent('error', { error })` — the `error` field stores the value
itself — and dispatches it, delivering it to every listener registered for
the `"error"` type.  The `Except` result records whether the callback
re-throws the failure synchronously; the code never does, so the result is
always `.ok` with the dispatched event and the recipient identities. -/
def handleNativeError {ε : Type} (e : ε) (s : FState) :
    Except ε (ErrorEvent ε × List Nat) :=
  .ok (⟨"error", e⟩, (s.listeners.filter (fun p => p.1 == "error")).map (·.2))

/-! ### Exit flag and sends (`src/node-worker.js` lines 122-124, 164-166) -/

structure LifeState (μ : Type) where
  exited : Bool
  sends : List μ
deriving DecidableEq, Repr

/-- `postMessage(...args)`: forwards unconditionally to
`this.#worker.postMessage(...args)` — there is no guard on the exited
flag, so the send on the native channel is always attempted. -/
def postMessageF {μ : Type} (m : μ) (s : LifeState μ) : LifeState μ :=
  { s with sends := s.sends ++ [m] }

/-- The `worker.on('exit', ...)` callback: sets `this._exited = true`. -/
def onExitF {μ : Type} (s : LifeState μ) : LifeState μ :=
  { s with exited := true }

/-- The operations that touch the exited flag or the native channel. -/
inductive WOp (μ : Type) where
  | post (m : μ)
  | exitSignal
deriving DecidableEq, Repr

def stepF {μ : Type} : WOp μ → LifeState μ → LifeState μ
  | .post m, s => postMessageF m s
  | .exitSignal, s => onExitF s

/-! ### Synchronous blob reader singleton (`src/node-worker.js` lines 9-39) -/

/-- State of the `createBlobReader` binding: `memo` holds the reader the
binding was rebound to after the first call (the source replaces
`createBlobReader` with `() => blobReader`), and `spawned` counts the
dedicated resolver contexts (shared buffer + channel + native worker)
spawned so far.  Reader identities are drawn from the spawn counter. -/
structure ReaderState where
  memo : Option Nat
  spawned : Nat
deriving DecidableEq, Repr

/-- One call of `createBlobReader()`: on the first call it spawns the
dedicated resolver context, builds the reader closure, memoizes it by
rebinding, and returns it; every later call returns the memoized reader
without spawning anything. -/
def createBlobReaderStep (s : ReaderState) : Nat × ReaderState :=
  match s.memo with
  | some r => (r, s)
  | none => (s.spawned, { memo := some s.spawned, spawned := s.spawned + 1 })

/-- `n` successive calls of `createBlobReader()` (one per blob-sourced
Worker construction), returning the list of readers handed out. -/
def runCreates : Nat → ReaderState → List Nat × ReaderState
  | 0, s => ([], s)
  | n + 1, s =>
    let p := createBlobReaderStep s
    let q := runCreates n p.2
    (p.1 :: q.1, q.2)

/-! ### Loader hooks (`src/node-loader-v16.js`, `src/node-loader-v18.js`)

The `resolve` hooks of both loader variants are textually identical; the
host's URL resolution (`new URL(specifier, parentURL).href`) and the
fallback continuation (`nextResolve`) are host primitives and are passed
in as parameters. -/

structure ResolveOut where
  shortCircuit : Bool
  url : String
deriving DecidableEq, Repr

/-- JavaScript truthiness test `parentURL && parentURL.startsWith('https:')`
on the (possibly absent, defaulted-to-null) `context.parentURL`. -/
def parentIsRemote : Option String → Bool
  | none => false
  | some p => jsStartsWith "https:" p

/-- The v16 loader's `resolve(specifier, context, nextResolve)`
(src/node-loader-v16.js lines 29-54). -/
def resolveV16 (uR : String → String → String)
    (next : String → Option String → ResolveOut)
    (specifier : String) (parentURL : Option String) : ResolveOut :=
  if jsStartsWith "https:" specifier then ⟨true, specifier⟩
  else if parentIsRemote parentURL then ⟨true, uR specifier (parentURL.getD "")⟩
  else if jsStartsWith "blob:" specifier then ⟨true, specifier⟩
  else next specifier parentURL

/-- The v18 loader's `resolve(specifier, context, nextResolve)`
(src/node-loader-v18.js lines 16-41). -/
def resolveV18 (uR : String → String → String)
    (next : String → Option String → ResolveOut)
    (specifier : String) (parentURL : Option String) : ResolveOut :=
  if jsStartsWith "https:" specifier then ⟨true, specifier⟩
  else if parentIsRemote parentURL then ⟨true, uR specifier (parentURL.getD "")⟩
  else if jsStartsWith "blob:" specifier then ⟨true, specifier⟩
  else next specifier parentURL

/-- How a `load` hook classifies its URL argument: fetch it as a remote
module, resolve it as an ephemeral (blob) reference via the broadcast
protocol, or delegate to `nextLoad`. -/
inductive LoadAction where
  | remote (url : String)
  | blob (token : String)
  | delegate
deriving DecidableEq, Repr

/-- The sentinel substring the v16 loader's `load` hook searches for,
`data:text/javascript;,"blob:nodedata:` — the shape in which a blob URL
reaches the v16 hook. -/
def sentinel : String := "data:text/javascript;,\"blob:nodedata:"

/-- The v18 loader's `load(url, context, nextLoad)` decision structure
(src/node-loader-v18.js lines 43-77): `https://` URLs are fetched,
bare `blob:` URLs are resolved over the broadcast channel, everything
else is delegated. -/
def loadV18 (url : String) : LoadAction :=
  if jsStartsWith "https://" url then .remote url
  else if jsStartsWith "blob:" url then .blob url
  else .delegate

/-- The v16 loader's `load(url, context, nextLoad)` decision structure
(src/node-loader-v16.js lines 56-95): `https://` URLs are fetched; a URL
containing the sentinel-wrapped blob shape yields the blob token
`url.slice(-51, -1)`; everything else is delegated. -/
def loadV16 (url : String) : LoadAction :=
  if jsStartsWith "https://" url then .remote url
  else if jsIncludes sentinel url then .blob (jsSlice url (-51) (-1))
  else .delegate

/-- The sentinel-wrapped shape in which a bare blob URL `t` reaches the
v16 `load` hook: the blob URL quoted inside a `data:` wrapper. -/
def sentinelWrap (t : String) : String :=
  "data:text/javascript;,\"" ++ t ++ "\""

/-! ### Ephemeral reference broadcast protocol
(`src/node-worker.js` lines 55-64, requester in both loaders' `load`) -/

structure BlobResponse where
  url : String
  source : String
deriving DecidableEq, Repr

/-- The responder on the `'blob: loader'` broadcast channel
(src/node-worker.js lines 55-64): looks the token up in the host's
ephemeral-object registry (`resolveObjectURL`), and posts `{url, source}`
with the blob's full text exactly when the registry has an entry;
on a registry miss it posts nothing. -/
def respondBlobRequest (registry : String → Option String) (url : String) :
    Option BlobResponse :=
  (registry url).map (fun source => ⟨url, source⟩)

/-- The requester inside the loaders' `load` hook: races the observed
broadcast responses for the first whose `url` field equals the requested
token and resolves with its `source`; with no matching response it never
resolves (`none`) — there is no timeout. -/
def awaitBlobSource (blobUrl : String) (responses : List BlobResponse) :
    Option String :=
  (responses.find? (fun r => r.url == blobUrl)).map (·.source)

/-- The module source a `load` classification produces, given the ambient
fetch function and the broadcast responses observed: remote URLs yield the
fetched text, blob tokens yield the broadcast-resolved source, delegation
yields no source from this hook. -/
def loadSource (a : LoadAction) (fetchFn : String → String)
    (responses : List BlobResponse) : Option String :=
  match a with
  | .remote u => some (fetchFn u)
  | .blob t => awaitBlobSource t responses
  | .delegate => none

/-! ### Fetch fallback (`src/node-loader-v18.js` lines 79-88,
`src/node-loader-v16.js` lines 97-106)

`get(url, res => ...)` with `res.on('data') / res.on('end') /
res.on('error')`: when a response is established, its stream is embedded
as the list of events delivered to the handler, in order.  A transport
failure can instead occur at the request level, before any response
exists (DNS/connect/TLS failure): it is emitted as an `'error'` on the
`ClientRequest` returned by `get`, for which the code registers no
listener, so neither `resolve` nor `reject` ever runs. -/

inductive StreamEvent where
  | chunk (s : String)
  | ended
  | errored (e : Nat)
deriving DecidableEq, Repr

/-- Outcome of the underlying `get(url, ...)` transport: either a response
object is delivered to the callback (followed by its event stream), or a
request-level error occurs and no response is ever delivered. -/
inductive Transport where
  | response (events : List StreamEvent)
  | requestError (e : Nat)
deriving DecidableEq, Repr

/-- In-order concatenation of received chunks. -/
def concatChunks : List String → String
  | [] => ""
  | c :: cs => c ++ concatChunks cs

/-- The fetch-fallback response handler: accumulates `out += chunk` on
every data event, settles the promise with the buffered string on `end`,
rejects it with the transport error on `error`; events after the first
settlement are ignored and with no settling event the promise stays
pending (`none`). -/
def bufferResponse (out : String) : List StreamEvent → Option (Except Nat String)
  | [] => none
  | .chunk c :: rest => bufferResponse (out ++ c) rest
  | .ended :: _ => some (.ok out)
  | .errored e :: _ => some (.error e)

/-- The fallback `fetch` used when no native fetch primitive exists, over
a complete transport outcome.  The promise's only settlement paths are the
`res.on('end')` resolve and the `res.on('error')` reject inside the
response callback; on a request-level error no registered handler runs, so
the promise never settles (`none`). -/
def fetchFallbackRun : Transport → Option (Except Nat String)
  | .response events => bufferResponse "" events
  | .requestError _ => none

/-! ### Helper lemmas -/

theorem addEventListener_forwarders (ty : String) (l : Nat) (s : FState) :
    (addEventListener ty l s).forwarders =
      if ty == "message" then s.forwarders + 1 else s.forwarders := by
  by_cases h : (ty, l) ∈ s.listeners <;>
    by_cases hm : ty == "message" <;>
      simp [addEventListener, superAddEventListener, h, hm]

theorem addEventListener_slot (ty : String) (l : Nat) (s : FState) :
    (addEventListener ty l s).slot = s.slot := by
  by_cases h : (ty, l) ∈ s.listeners <;>
    by_cases hm : ty == "message" <;>
      simp [addEventListener, superAddEventListener, h, hm]

theorem addEventListener_listeners (ty : String) (l : Nat) (s : FState) :
    (addEventListener ty l s).listeners =
      if (ty, l) ∈ s.listeners then s.listeners else s.listeners ++ [(ty, l)] := by
  by_cases h : (ty, l) ∈ s.listeners <;>
    by_cases hm : ty == "message" <;>
      simp [addEventListener, superAddEventListener, h, hm]

theorem mem_addEventListener (ty : String) (l : Nat) (s : FState) :
    (ty, l) ∈ (addEventListener ty l s).listeners := by
  rw [addEventListener_listeners]
  by_cases h : (ty, l) ∈ s.listeners <;> simp [h]

theorem addEventListener_nodup (ty : String) (l : Nat) (s : FState)
    (h : s.listeners.Nodup) : (addEventListener ty l s).listeners.Nodup := by
  rw [addEventListener_listeners]
  by_cases hm : (ty, l) ∈ s.listeners
  · simpa [hm] using h
  · simp [hm, List.nodup_append, h]

theorem registerMany_forwarders (ls : List Nat) (s : FState) :
    (registerMany ls s).forwarders = s.forwarders + ls.length := by
  induction ls generalizing s with
  | nil => simp [registerMany]
  | cons a t ih =>
    have h1 : registerMany (a :: t) s = registerMany t (addEventListener "message" a s) := rfl
    rw [h1, ih, addEventListener_forwarders]
    simp
    omega

theorem runCreates_memo (m : Nat) (r c : Nat) :
    runCreates m ⟨some r, c⟩ = (List.replicate m r, ⟨some r, c⟩) := by
  induction m with
  | zero => rfl
  | succ k ih => simp [runCreates, createBlobReaderStep, ih, List.replicate_succ]

theorem bufferResponse_chunks (chunks : List String) (out : String)
    (l : List StreamEvent) :
    bufferResponse out (chunks.map .chunk ++ l) =
      bufferResponse (out ++ concatChunks chunks) l := by
  induction chunks generalizing out with
  | nil => simp [concatChunks, String.append_empty]
  | cons c cs ih => simp [concatChunks, bufferResponse, ih, String.append_assoc]

/-! ### Claims about the Worker facade -/

/-- Claim C2: the constructor throws the configuration error synchronously
exactly when `options.type` is not `"module"` (including when options or
type is omitted), and the throw happens before any native context is
spawned; with `type = "module"` no configuration error is thrown and
construction proceeds to spawn the context. -/
theorem construct_config_error (u : String) (opts : WorkerOptions) :
    ((∃ e, (construct u opts).2 = Except.error e) ↔ opts.type ≠ some "module")
    ∧ (opts.type ≠ some "module" → (construct u opts).1 = [])
    ∧ (opts.type = some "module" →
        (construct u opts).1 = [Effect.spawnNative u opts.name]
        ∧ (construct u opts).2 = Except.ok initF) := by
  by_cases h : opts.type = some "module" <;> simp [construct, h]

/-- Witness for C2: omitting the options throws with nothing spawned;
passing `type: "module"` spawns the native context. -/
theorem construct_config_error_witness :
    (∃ e, (construct "w.js" ({} : WorkerOptions)).2 = Except.error e)
    ∧ (construct "w.js" ({} : WorkerOptions)).1 = []
    ∧ (construct "w.js" { type := some "module" }).1 =
        [Effect.spawnNative "w.js" none] := by
  refine ⟨(construct_config_error "w.js" {}).1.mpr (by decide),
    (construct_config_error "w.js" {}).2.1 (by decide),
    ((construct_config_error "w.js" { type := some "module" }).2.2 rfl).1⟩

/-- Claim C3: a fatal failure value `e` from the native context is
dispatched as an error event whose `error` field is `e` itself
(unmodified), and the handler never re-throws the failure synchronously
(the result is never `Except.error`). -/
theorem error_event_preserves_cause {ε : Type} (e : ε) (s : FState) :
    (∃ recips, handleNativeError e s =
      Except.ok ({ type := "error", error := e }, recips))
    ∧ (∀ x : ε, handleNativeError e s ≠ Except.error x) := by
  exact ⟨⟨_, rfl⟩, fun x h => by simp [handleNativeError] at h⟩

/-- Witness for C3 at a concrete failure value and facade state. -/
theorem error_event_preserves_cause_witness :
    (∃ recips, handleNativeError (3 : Nat) initF =
      Except.ok ({ type := "error", error := 3 }, recips))
    ∧ handleNativeError (3 : Nat) initF ≠ Except.error 3 := by
  exact ⟨(error_event_preserves_cause 3 initF).1,
    (error_event_preserves_cause 3 initF).2 3⟩

/-- Counterexample for C9 as stated: after the handle observes the native
exit signal, a `postMessage` call still performs a send on the native
channel — the sends list grows from `[]` to `[5]`, so "every subsequent
postMessage call performs no send" is false. -/
theorem post_after_exit_counterexample :
    (onExitF (⟨false, []⟩ : LifeState Nat)).exited = true
    ∧ (postMessageF 5 (onExitF (⟨false, []⟩ : LifeState Nat))).sends = [5]
    ∧ (postMessageF 5 (onExitF (⟨false, []⟩ : LifeState Nat))).sends ≠
        (onExitF (⟨false, []⟩ : LifeState Nat)).sends := by
  decide

/-- Claim C9 (amended): the exited flag is set once upon the native exit
signal and is monotonic (no operation resets it), but `postMessage`
forwards to the native channel unconditionally: the send is attempted
regardless of the exited flag. -/
theorem exited_monotonic_sends_unguarded {μ : Type} (op : WOp μ)
    (s : LifeState μ) (m : μ) :
    (s.exited = true → (stepF op s).exited = true)
    ∧ (stepF WOp.exitSignal s).exited = true
    ∧ (stepF (WOp.post m) s).sends = s.sends ++ [m] := by
  cases op <;> simp [stepF, postMessageF, onExitF]

/-- Witness for C9's amended theorem at concrete inputs. -/
theorem exited_monotonic_sends_unguarded_witness :
    (stepF (WOp.post 1) (⟨true, []⟩ : LifeState Nat)).exited = true
    ∧ (stepF WOp.exitSignal (⟨true, []⟩ : LifeState Nat)).exited = true
    ∧ (stepF (WOp.post 2) (⟨true, []⟩ : LifeState Nat)).sends = [] ++ [2] := by
  have h := exited_monotonic_sends_unguarded (μ := Nat) (WOp.post 1) ⟨true, []⟩ 2
  exact ⟨h.1 rfl, h.2.1, (exited_monotonic_sends_unguarded (WOp.post 2) ⟨true, []⟩ 2).2.2⟩

/-- Claim C10: `createBlobReader` is a process-wide singleton — over any
number `n ≥ 1` of calls starting from the fresh state, exactly one
resolver context is ever spawned, and every call returns the same
(memoized) reader. -/
theorem createBlobReader_singleton (n : Nat) (h : 1 ≤ n) :
    (runCreates n ⟨none, 0⟩).2 = ⟨some 0, 1⟩
    ∧ (runCreates n ⟨none, 0⟩).1 = List.replicate n 0 := by
  obtain ⟨m, rfl⟩ : ∃ m, n = m + 1 := ⟨n - 1, by omega⟩
  have h1 : runCreates (m + 1) (⟨none, 0⟩ : ReaderState) =
      (0 :: (runCreates m ⟨some 0, 1⟩).1, (runCreates m ⟨some 0, 1⟩).2) := rfl
  rw [h1, runCreates_memo]
  simp [List.replicate_succ]

/-- Witness for C10: three blob-sourced constructions cause one spawn and
share one reader. -/
theorem createBlobReader_singleton_witness :
    (runCreates 3 ⟨none, 0⟩).2 = ⟨some 0, 1⟩
    ∧ (runCreates 3 ⟨none, 0⟩).1 = [0, 0, 0] := by
  have h := createBlobReader_singleton 3 (by decide)
  exact ⟨h.1, by simpa using h.2⟩

theorem slotRemoved_listeners (s : FState) :
    (slotRemoved s).listeners =
      (match s.slot with
        | some old => s.listeners.erase ("message", old)
        | none => s.listeners) := by
  cases hs : s.slot <;> simp [slotRemoved, removeEventListener, hs]

theorem slotRemoved_nodup (s : FState) (h : s.listeners.Nodup) :
    (slotRemoved s).listeners.Nodup := by
  rw [slotRemoved_listeners]
  cases hs : s.slot <;> simp [h, List.Nodup.erase, hs]

theorem setOnmessage_fn_slot (f : Nat) (s : FState) :
    (setOnmessage (.fn f) s).slot = some f := by
  simp [setOnmessage, addEventListener_slot]

theorem setOnmessage_nonFn_slot (s : FState) :
    (setOnmessage .nonFn s).slot = none := rfl

theorem setOnmessage_nodup (v : JSVal) (s : FState) (h : s.listeners.Nodup) :
    (setOnmessage v s).listeners.Nodup := by
  cases v with
  | fn f =>
    have h1 := slotRemoved_nodup s h
    exact addEventListener_nodup _ _ _ h1
  | nonFn => exact slotRemoved_nodup s h

/-- Claim C4: assigning a function to `onmessage` removes the previously
assigned function from the listener set and adds the new one, so after
assigning `f1` then `f2` the slot holds only `f2` and `f1` is no longer a
registered listener (it receives no subsequent messages); assigning a
non-function clears the slot (the getter returns `null`) and removes the
previously slotted handler; after every assignment the registrations stay
duplicate-free, so at most one active handler is reachable through the
slot. -/
theorem onmessage_slot_replacement (s : FState) (f1 f2 : Nat)
    (hnd : s.listeners.Nodup) :
    (setOnmessage (.fn f2) (setOnmessage (.fn f1) s)).slot = some f2
    ∧ (f1 ≠ f2 →
        ("message", f1) ∉ (setOnmessage (.fn f2) (setOnmessage (.fn f1) s)).listeners)
    ∧ ("message", f2) ∈ (setOnmessage (.fn f2) (setOnmessage (.fn f1) s)).listeners
    ∧ (setOnmessage .nonFn s).slot = none
    ∧ (∀ f, s.slot = some f → ("message", f) ∉ (setOnmessage .nonFn s).listeners)
    ∧ (∀ v : JSVal, (setOnmessage v s).listeners.Nodup) := by
  have hs1slot : (setOnmessage (.fn f1) s).slot = some f1 := setOnmessage_fn_slot f1 s
  have hs1nd : (setOnmessage (.fn f1) s).listeners.Nodup := setOnmessage_nodup _ s hnd
  refine ⟨setOnmessage_fn_slot f2 _, ?_, ?_, setOnmessage_nonFn_slot s, ?_,
    fun v => setOnmessage_nodup v s hnd⟩
  · intro hne
    set s1 := setOnmessage (.fn f1) s with hdef
    have hrm : (slotRemoved s1).listeners = s1.listeners.erase ("message", f1) := by
      rw [slotRemoved_listeners, hs1slot]
    have hnotmem : ("message", f1) ∉ (slotRemoved s1).listeners := by
      rw [hrm]
      intro hmem
      exact absurd rfl (hs1nd.mem_erase_iff.mp hmem).1
    simp only [setOnmessage]
    rw [addEventListener_listeners]
    by_cases hin : ("message", f2) ∈ ({ slotRemoved s1 with slot := some f2 } : FState).listeners
    · rw [if_pos hin]
      exact hnotmem
    · rw [if_neg hin]
      intro hmem
      rcases List.mem_append.mp hmem with hmem | hmem
      · exact hnotmem hmem
      · have h12 : ("message", f1) = ("message", f2) := List.mem_singleton.mp hmem
        exact hne (by simpa using h12)
  · simp only [setOnmessage]
    exact mem_addEventListener _ _ _
  · intro f hf
    simp only [setOnmessage]
    show ("message", f) ∉ (slotRemoved s).listeners
    rw [slotRemoved_listeners, hf]
    intro hmem
    exact absurd rfl (hnd.mem_erase_iff.mp hmem).1

/-- Witness for C4 at the fresh facade with functions 1 and 2. -/
theorem onmessage_slot_replacement_witness :
    (setOnmessage (.fn 2) (setOnmessage (.fn 1) initF)).slot = some 2
    ∧ ("message", 1) ∉ (setOnmessage (.fn 2) (setOnmessage (.fn 1) initF)).listeners
    ∧ (setOnmessage .nonFn initF).slot = none := by
  have h := onmessage_slot_replacement initF 1 2 (by decide)
  exact ⟨h.1, h.2.1 (by decide), h.2.2.2.1⟩

/-- Counterexample for C1 as stated: after two `addEventListener('message')`
calls (listeners 1 and 2), one native message yields two dispatched
message events at the handle, not exactly one. -/
theorem message_forwarding_counterexample :
    (nativeMessage (0 : Nat)
      (addEventListener "message" 2 (addEventListener "message" 1 initF))).length = 2
    ∧ (nativeMessage (0 : Nat)
      (addEventListener "message" 2 (addEventListener "message" 1 initF))).length ≠ 1 := by
  decide

/-- Claim C1 (amended): each `addEventListener('message', ...)` call arms
one more forwarder from the native channel (per-call, not latch-once), so
one native message with value `v` yields exactly one message event per
registration call made, each carrying `data = v`; in particular a single
registration call yields exactly one message event with `data = v`. -/
theorem message_events_per_registration {α : Type} (ls : List Nat) (v : α) :
    (nativeMessage v (registerMany ls initF)).length = ls.length
    ∧ (∀ e ∈ nativeMessage v (registerMany ls initF), e.data = v)
    ∧ (∀ l : Nat, nativeMessage v (registerMany [l] initF) = [⟨v⟩]) := by
  refine ⟨?_, ?_, ?_⟩
  · simp [nativeMessage, registerMany_forwarders, initF]
  · intro e he
    have := List.eq_of_mem_replicate he
    simp [this]
  · intro l
    have h1 : (registerMany [l] initF).forwarders = 1 := by
      simp [registerMany_forwarders, initF]
    simp [nativeMessage, h1]

/-- Witness for C1's amended theorem: one registration call, one event. -/
theorem message_events_per_registration_witness :
    (nativeMessage (42 : Nat) (registerMany [7] initF)).length = 1
    ∧ nativeMessage (42 : Nat) (registerMany [7] initF) = [⟨42⟩] := by
  have h := message_events_per_registration (α := Nat) [7] 42
  exact ⟨by simpa using h.1, h.2.2 7⟩

/-! ### Claims about the loader hooks -/

theorem jsStartsWith_iff (p s : String) :
    jsStartsWith p s = true ↔ p.data <+: s.data :=
  List.isPrefixOf_iff_prefix

theorem jsIncludes_iff (p s : String) :
    jsIncludes p s = true ↔ p.data <:+: s.data := by
  simp [jsIncludes, String.toList]

theorem blobToken_not_https (t : String)
    (h1 : jsStartsWith "blob:nodedata:" t = true) :
    jsStartsWith "https://" t = false := by
  obtain ⟨r, hr⟩ := (jsStartsWith_iff _ _).mp h1
  show List.isPrefixOf "https://".data t.data = false
  rw [← hr]
  rfl

theorem blobToken_blob (t : String)
    (h1 : jsStartsWith "blob:nodedata:" t = true) :
    jsStartsWith "blob:" t = true := by
  have hpre : "blob:".data <+: "blob:nodedata:".data := by decide
  exact (jsStartsWith_iff _ _).mpr (hpre.trans ((jsStartsWith_iff _ _).mp h1))

theorem sentinelWrap_not_https (t : String) :
    jsStartsWith "https://" (sentinelWrap t) = false := rfl

theorem sentinelWrap_includes (t : String)
    (h1 : jsStartsWith "blob:nodedata:" t = true) :
    jsIncludes sentinel (sentinelWrap t) = true := by
  obtain ⟨r, hr⟩ := (jsStartsWith_iff _ _).mp h1
  apply (jsIncludes_iff _ _).mpr
  refine ⟨[], r ++ ['"'], ?_⟩
  have hsent : sentinel.data =
      "data:text/javascript;,\"".data ++ "blob:nodedata:".data := rfl
  have hwd : (sentinelWrap t).data =
      "data:text/javascript;,\"".data ++ (t.data ++ ['"']) := by
    simp [sentinelWrap, String.data_append, List.append_assoc]
  rw [hsent, hwd, ← hr]
  simp [List.append_assoc]

theorem sentinelWrap_slice (t : String) (h2 : t.length = 50) :
    jsSlice (sentinelWrap t) (-51) (-1) = t := by
  have h2' : t.data.length = 50 := h2
  have hwd : (sentinelWrap t).data =
      "data:text/javascript;,\"".data ++ (t.data ++ ['"']) := by
    simp [sentinelWrap, String.data_append, List.append_assoc]
  have h23 : ("data:text/javascript;,\"".data : List Char).length = 23 := rfl
  have hlen : (sentinelWrap t).length = 74 := by
    show (sentinelWrap t).data.length = 74
    rw [hwd]
    simp [List.length_append, h23, h2']
  show String.mk (((sentinelWrap t).toList.drop
      (jsSliceIndex (sentinelWrap t).length (-51))).take
      (jsSliceIndex (sentinelWrap t).length (-1) -
        jsSliceIndex (sentinelWrap t).length (-51))) = t
  rw [hlen]
  have hi1 : jsSliceIndex 74 (-51) = 23 := by decide
  have hi2 : jsSliceIndex 74 (-1) = 73 := by decide
  rw [hi1, hi2]
  have htl : (sentinelWrap t).toList =
      "data:text/javascript;,\"".data ++ (t.data ++ ['"']) := hwd
  rw [htl]
  rw [show (23 : Nat) = ("data:text/javascript;,\"".data : List Char).length from rfl]
  rw [List.drop_left]
  rw [show ((73 : Nat) - "data:text/javascript;,\"".data.length) = t.data.length by
    rw [h23, h2']]
  rw [List.take_left]

/-- Claim C5: the resolve hook applies exactly this policy in this order:
(1) remote https specifiers are returned as-is with short-circuit; (2)
otherwise, with a remote parent, the specifier is resolved relative to the
parent and returned absolute with short-circuit; (3) otherwise blob-style
specifiers are returned as-is with short-circuit; (4) otherwise the result
equals the fallback continuation's result — for both loader variants. -/
theorem resolve_policy (uR : String → String → String)
    (next : String → Option String → ResolveOut)
    (sp : String) (parent : Option String) :
    (jsStartsWith "https:" sp = true →
      resolveV18 uR next sp parent = ⟨true, sp⟩
      ∧ resolveV16 uR next sp parent = ⟨true, sp⟩)
    ∧ (jsStartsWith "https:" sp = false → ∀ p, parent = some p →
        jsStartsWith "https:" p = true →
        resolveV18 uR next sp parent = ⟨true, uR sp p⟩
        ∧ resolveV16 uR next sp parent = ⟨true, uR sp p⟩)
    ∧ (jsStartsWith "https:" sp = false → parentIsRemote parent = false →
        jsStartsWith "blob:" sp = true →
        resolveV18 uR next sp parent = ⟨true, sp⟩
        ∧ resolveV16 uR next sp parent = ⟨true, sp⟩)
    ∧ (jsStartsWith "https:" sp = false → parentIsRemote parent = false →
        jsStartsWith "blob:" sp = false →
        resolveV18 uR next sp parent = next sp parent
        ∧ resolveV16 uR next sp parent = next sp parent) := by
  refine ⟨?_, ?_, ?_, ?_⟩
  · intro h
    simp [resolveV18, resolveV16, h]
  · intro h1 p hp h2
    subst hp
    have hrem : parentIsRemote (some p) = true := by simp [parentIsRemote, h2]
    simp [resolveV18, resolveV16, h1, hrem]
  · intro h1 h2 h3
    simp [resolveV18, resolveV16, h1, h2, h3]
  · intro h1 h2 h3
    simp [resolveV18, resolveV16, h1, h2, h3]

/-- Witness for C5: a bare specifier under a remote parent resolves
relative to the parent; under no parent it delegates. -/
theorem resolve_policy_witness :
    resolveV18 (fun s p => p ++ s) (fun s _ => ⟨false, s⟩) "x.js" (some "https://a/") =
      ⟨true, "https://a/" ++ "x.js"⟩
    ∧ resolveV16 (fun s p => p ++ s) (fun s _ => ⟨false, s⟩) "util.js" none =
      ⟨false, "util.js"⟩ := by
  have h1 := (resolve_policy (fun s p => p ++ s) (fun s _ => ⟨false, s⟩)
    "x.js" (some "https://a/")).2.1 (by decide) "https://a/" rfl (by decide)
  have h2 := (resolve_policy (fun s p => p ++ s) (fun s _ => ⟨false, s⟩)
    "util.js" none).2.2.2 (by decide) (by decide) (by decide)
  exact ⟨h1.1, h2.2⟩

/-- Claim C6: the v16-family and v18-family loader hooks implement the
same policy modulo interface shape: the resolve hooks agree on every
input; both classify remote URLs as fetched modules; for every ephemeral
blob token (in the v18 family as a bare URL, in the v16 family in its
sentinel-wrapped shape) both classify it as the same blob request with the
same token, and hence produce the same module source for the same
environment; and both delegate everything else. -/
theorem loader_variants_equivalent :
    (∀ (uR : String → String → String)
       (next : String → Option String → ResolveOut)
       (sp : String) (parent : Option String),
        resolveV16 uR next sp parent = resolveV18 uR next sp parent)
    ∧ (∀ u, jsStartsWith "https://" u = true →
        loadV16 u = .remote u ∧ loadV18 u = .remote u)
    ∧ (∀ t, jsStartsWith "blob:nodedata:" t = true → t.length = 50 →
        loadV18 t = .blob t ∧ loadV16 (sentinelWrap t) = .blob t
        ∧ (∀ (fetchFn : String → String) (rs : List BlobResponse),
            loadSource (loadV16 (sentinelWrap t)) fetchFn rs =
              loadSource (loadV18 t) fetchFn rs))
    ∧ (∀ u, jsStartsWith "https://" u = false → jsStartsWith "blob:" u = false →
        jsIncludes sentinel u = false →
        loadV16 u = .delegate ∧ loadV18 u = .delegate) := by
  refine ⟨fun uR next sp parent => rfl, ?_, ?_, ?_⟩
  · intro u h
    simp [loadV16, loadV18, h]
  · intro t h1 h2
    have hv18 : loadV18 t = .blob t := by
      simp [loadV18, blobToken_not_https t h1, blobToken_blob t h1]
    have hv16 : loadV16 (sentinelWrap t) = .blob t := by
      simp [loadV16, sentinelWrap_not_https, sentinelWrap_includes t h1,
        sentinelWrap_slice t h2]
    exact ⟨hv18, hv16, fun fetchFn rs => by rw [hv16, hv18]⟩
  · intro u h1 h2 h3
    simp [loadV16, loadV18, h1, h2, h3]

/-- Witness for C6 at a concrete blob token of the registry's shape. -/
theorem loader_variants_equivalent_witness :
    loadV18 "blob:nodedata:aaaaaaaa-bbbb-cccc-dddd-eeeeeeeeeeee" =
      .blob "blob:nodedata:aaaaaaaa-bbbb-cccc-dddd-eeeeeeeeeeee"
    ∧ loadV16 (sentinelWrap "blob:nodedata:aaaaaaaa-bbbb-cccc-dddd-eeeeeeeeeeee") =
      .blob "blob:nodedata:aaaaaaaa-bbbb-cccc-dddd-eeeeeeeeeeee"
    ∧ loadV16 "https://x.js" = .remote "https://x.js" := by
  have h3 := loader_variants_equivalent.2.2.1
    "blob:nodedata:aaaaaaaa-bbbb-cccc-dddd-eeeeeeeeeeee" (by decide) (by decide)
  exact ⟨h3.1, h3.2.1,
    (loader_variants_equivalent.2.1 "https://x.js" (by decide)).1⟩

/-- Claim C7: the broadcast responder posts a `{token, content}` response
exactly when the token is in the registry, carrying the requested token
and its full content; the requester resolves only with the content of a
response whose token equals the requested one, ignoring all others; on a
registry miss no response is ever sent, and with no matching response the
requester never resolves (no timeout, no not-found signal). -/
theorem blob_protocol (registry : String → Option String) (tok : String) :
    ((respondBlobRequest registry tok).isSome = (registry tok).isSome)
    ∧ (∀ r, respondBlobRequest registry tok = some r →
        r.url = tok ∧ registry tok = some r.source)
    ∧ (registry tok = none → respondBlobRequest registry tok = none)
    ∧ (∀ rs s, awaitBlobSource tok rs = some s →
        ∃ r ∈ rs, r.url = tok ∧ r.source = s)
    ∧ (∀ rs : List BlobResponse, (∀ r ∈ rs, r.url ≠ tok) →
        awaitBlobSource tok rs = none) := by
  refine ⟨?_, ?_, ?_, ?_, ?_⟩
  · cases h : registry tok <;> simp [respondBlobRequest, h]
  · intro r hr
    cases h : registry tok with
    | none => simp [respondBlobRequest, h] at hr
    | some src =>
      simp [respondBlobRequest, h] at hr
      subst hr
      exact ⟨rfl, rfl⟩
  · intro h
    simp [respondBlobRequest, h]
  · intro rs s hs
    unfold awaitBlobSource at hs
    cases hf : rs.find? (fun r => r.url == tok) with
    | none => simp [hf] at hs
    | some r =>
      simp [hf] at hs
      refine ⟨r, List.mem_of_find?_eq_some hf, ?_, hs⟩
      have := List.find?_some hf
      simpa using this
  · intro rs h
    unfold awaitBlobSource
    have : rs.find? (fun r => r.url == tok) = none := by
      rw [List.find?_eq_none]
      intro r hr
      simpa using h r hr
    simp [this]

/-- Witness for C7: a registry miss produces no response, and a requester
for an unanswered token never resolves. -/
theorem blob_protocol_witness :
    respondBlobRequest (fun u => if u = "blob:x" then some "src" else none) "blob:y" = none
    ∧ awaitBlobSource "blob:y" [⟨"blob:x", "src"⟩] = none := by
  have h := blob_protocol (fun u => if u = "blob:x" then some "src" else none) "blob:y"
  exact ⟨h.2.2.1 (by decide), h.2.2.2.2 [⟨"blob:x", "src"⟩] (by decide)⟩

/-- Counterexample for C8 as stated: a lower-level transport error at the
request level (before any response exists) does not reject the returned
promise — the code registers no `'error'` listener on the `ClientRequest`,
so the promise never settles at all, contradicting "rejects the returned
promise on every lower-level transport error". -/
theorem fetch_request_error_counterexample :
    fetchFallbackRun (Transport.requestError 7) = none
    ∧ fetchFallbackRun (Transport.requestError 7) ≠ some (Except.error 7) := by
  exact ⟨rfl, by simp [fetchFallbackRun]⟩

/-- Claim C8 (amended): on a completed response the fetch fallback
resolves with the in-order concatenation of every received chunk (never
partial or truncated), and it rejects the promise on every transport
error delivered to the response stream; but a request-level transport
error, occurring before a response exists, is unhandled and leaves the
promise unsettled forever (no rejection, no resolution). -/
theorem fetch_fallback_settlement (chunks : List String)
    (rest : List StreamEvent) (e : Nat) :
    fetchFallbackRun (.response (chunks.map .chunk ++ .ended :: rest)) =
      some (.ok (concatChunks chunks))
    ∧ fetchFallbackRun (.response (chunks.map .chunk ++ .errored e :: rest)) =
      some (.error e)
    ∧ fetchFallbackRun (.requestError e) = none := by
  refine ⟨?_, ?_, rfl⟩ <;>
    · show bufferResponse "" _ = _
      rw [bufferResponse_chunks]
      simp [bufferResponse, String.empty_append]

end WW
